import Mathlib

/-!
Shallow embedding of the `artificial_landscapes` repository's multi-fidelity
objective framework (`src/lib.rs`, `src/mfso.rs`, `src/mfb.rs`).

Conventions of the embedding:
* `f64` arithmetic is modelled by exact arithmetic: `ℚ` where the code only
  compares and combines decimal literals (`Interval`, `ResolutionError3::theta`),
  and `ℝ` where transcendental functions (`exp`, `cos`, `sin`, `sqrt`, `ln`)
  appear.  Decimal literals are exact in both.
* `NonZeroU64` / `NonZeroU8` fields become `ℕ` fields carrying their range
  invariants as proof fields.
* Rust panics (failed `assert!`, out-of-bounds indexing, `unwrap` on an empty
  iterator) are modelled by `Option`, with `none` for the panic.
* `u64::pow` wraps modulo `2^64`, written explicitly as `% 2 ^ 64`.
* The type-erased lazy iterator `Outputs` is modelled as the list of the pairs
  it yields, with an explicit `next` step function (`next` on the exhausted
  state yields `none` and leaves the state exhausted, as a Rust iterator over a
  finite range does).  Value components are `Option ℝ` because for the lazily
  evaluated Hartmann functions an individual pull can panic.
-/

namespace ArtificialLandscapes

/-! ### `src/lib.rs`: `Interval` -/

/-- Embeds `Interval { min: f64, max: f64 }` from `src/lib.rs`. -/
structure Interval where
  min : ℚ
  max : ℚ
deriving DecidableEq

/-- Embeds `Interval::new`: `Some` iff `min <= max`. -/
def Interval.new (min max : ℚ) : Option Interval :=
  if min ≤ max then some ⟨min, max⟩ else none

/-- Embeds `Interval::new_unchecked` (no validation). -/
def Interval.new_unchecked (min max : ℚ) : Interval :=
  ⟨min, max⟩

/-- Embeds the `ZERO_TO_ONE` constant of `src/mfso.rs`. -/
def zeroToOne : Interval := Interval.new_unchecked 0 1

/-! ### `src/mfb.rs`: resolution error models -/

/-- Embeds `ResolutionError3::theta` from `src/mfb.rs`.  The two `assert!`s
(`0.0 <= phi`, `phi < 10_000.0`) are modelled as guards returning `none`
(the panic); the body is the piecewise linear/constant cascade. -/
def ResolutionError3.theta (phi : ℚ) : Option ℚ :=
  if ¬ (0 ≤ phi) then none
  else if ¬ (phi < 10000) then none
  else if phi < 1000 then some (1 - 0.0002 * phi)
  else if phi < 2000 then some 0.8
  else if phi < 3000 then some (1.2 - 0.0002 * phi)
  else if phi < 4000 then some 0.6
  else if phi < 5000 then some (1.4 - 0.0002 * phi)
  else if phi < 6000 then some 0.4
  else if phi < 7000 then some (1.6 - 0.0002 * phi)
  else if phi < 8000 then some 0.2
  else if phi < 9000 then some (1.8 - 0.0002 * phi)
  else some 0

/-- Embeds `ResolutionError1::theta`. -/
noncomputable def ResolutionError1.theta (phi : ℝ) : ℝ :=
  1 - 0.0001 * phi

/-- Embeds `ResolutionError1`'s `a` (the `_x` argument is unused in the source). -/
noncomputable def ResolutionError1.a (_x phi : ℝ) : ℝ :=
  ResolutionError1.theta phi

/-- Embeds `ResolutionError1`'s `w`. -/
noncomputable def ResolutionError1.w (phi : ℝ) : ℝ :=
  10 * Real.pi * ResolutionError1.theta phi

/-- Embeds `ResolutionError1`'s `b`. -/
noncomputable def ResolutionError1.b (phi : ℝ) : ℝ :=
  0.5 * Real.pi * ResolutionError1.theta phi

/-- Embeds the `ResolutionError` trait's default `error` method, specialized
to `ResolutionError1`:
`sum_i a(x_i, phi) * cos(w(phi) * x_i + b(phi) + PI)`. -/
noncomputable def ResolutionError1.error (xs : List ℝ) (phi : ℝ) : ℝ :=
  (xs.map fun x =>
    ResolutionError1.a x phi *
      Real.cos (ResolutionError1.w phi * x + ResolutionError1.b phi + Real.pi)).sum

/-! ### `src/mfso.rs`: the `Outputs` protocol -/

/-- Embeds `Outputs`, the type-erased iterator of `(Cost, f64)` pairs, as the
list of pairs it will yield; a value component is `none` when computing that
pair would panic (out-of-bounds point access inside a lazy pull). -/
abbrev Outputs := List (ℕ × Option ℝ)

/-- Embeds one `Iterator::next` call on an `Outputs`: yields the head and the
advanced iterator, or `none` (leaving the iterator exhausted) when no elements
remain. -/
def Outputs.next : Outputs → Option (ℕ × Option ℝ) × Outputs
  | [] => (none, [])
  | x :: rest => (some x, rest)

/-- The iterator state after `n` pulls. -/
def Outputs.stateAfter : Outputs → ℕ → Outputs
  | o, 0 => o
  | o, n + 1 => Outputs.stateAfter (Outputs.next o).2 n

/-- The cost components of the pairs produced by one (possibly panicking)
evaluation: empty when the evaluation panicked before producing its sequence. -/
def costsOf (o : Option Outputs) : List ℕ :=
  (o.map (List.map Prod.fst)).getD []

/-- Embeds the `MultiFidelitySingleObjective` trait's default `max_cost`
implementation: evaluate at the point of per-interval minimums, take the last
pair, and return its cost (`none` models the `panic!` on an empty sequence or
a panic inside `evaluate`). -/
def drainMaxCost (input_domain : List Interval)
    (evaluate : List ℝ → Option Outputs) : Option ℕ :=
  ((evaluate (input_domain.map fun i => ((i.min : ℚ) : ℝ))).bind
    fun o => o.getLast?).map Prod.fst

/-! ### `src/mfso.rs`: `CurrinExponential` -/

/-- Embeds `CurrinExponential { cost_factor: NonZeroU64 }`. -/
structure CurrinExponential where
  costFactor : ℕ
  costFactor_pos : 0 < costFactor
  costFactor_lt : costFactor < 2 ^ 64

/-- Embeds `CurrinExponential::f2` (the `&self` receiver is unused). -/
noncomputable def CurrinExponential.f2 (xs : List ℝ) : Option ℝ := do
  let x1 ← xs.get? 0
  let x2 ← xs.get? 1
  let a := 1 - Real.exp (-1 / 2 * x2)
  let b := 2300 * x1 ^ 3 + 1900 * x1 ^ 2 + 2092 * x1 + 60
  let c := 100 * x1 ^ 3 + 500 * x1 ^ 2 + 4 * x1 + 20
  pure (a * (b / c))

/-- Embeds `CurrinExponential::f1`. -/
noncomputable def CurrinExponential.f1 (xs : List ℝ) : Option ℝ := do
  let x1 ← xs.get? 0
  let x2 ← xs.get? 1
  let a ← CurrinExponential.f2 [x1 + 0.05, x2 + 0.05]
  let b ← CurrinExponential.f2 [x1 + 0.05, max 0 (x2 - 0.05)]
  let c ← CurrinExponential.f2 [x1 - 0.05, x2 + 0.05]
  let d ← CurrinExponential.f2 [x1 - 0.05, max 0 (x2 - 0.05)]
  pure (a / 4 + b / 4 + c / 4 + d / 4)

/-- Embeds `CurrinExponential`'s `input_domain`. -/
def CurrinExponential.input_domain : List Interval :=
  [zeroToOne, zeroToOne]

/-- Embeds `CurrinExponential::evaluate`: both `f1(xs)` and `f2(xs)` are
computed eagerly (they are arguments of `iter::once`), so an out-of-bounds
access panics at the `evaluate` call itself, before any pull. -/
noncomputable def CurrinExponential.evaluate (self : CurrinExponential)
    (xs : List ℝ) : Option Outputs := do
  let v1 ← CurrinExponential.f1 xs
  let v2 ← CurrinExponential.f2 xs
  pure [(1, some v1), (self.costFactor, some v2)]

/-- Embeds `CurrinExponential`'s overriding `max_cost`. -/
def CurrinExponential.max_cost (self : CurrinExponential) : ℕ :=
  self.costFactor

/-- Embeds `CurrinExponential::default()` (`Self::new(TEN)`). -/
def currinDefault : CurrinExponential :=
  ⟨10, by norm_num, by norm_num⟩

/-! ### `src/mfso.rs`: `Park` -/

/-- Embeds `Park { cost_factor: NonZeroU64 }`. -/
structure Park where
  costFactor : ℕ
  costFactor_pos : 0 < costFactor
  costFactor_lt : costFactor < 2 ^ 64

/-- Embeds `Park::f2`. -/
noncomputable def Park.f2 (xs : List ℝ) : Option ℝ := do
  let x1 ← xs.get? 0
  let x2 ← xs.get? 1
  let x3 ← xs.get? 2
  let x4 ← xs.get? 3
  let a := x1 / 2
  let b := Real.sqrt (1 + (x2 + x3 ^ 2) * (x4 / x1 ^ 2)) - 1
  let c := (x1 + 3 * x4) * Real.exp (1 + Real.sin x3)
  pure (a * b + c)

/-- Embeds `Park::f1`. -/
noncomputable def Park.f1 (xs : List ℝ) : Option ℝ := do
  let x1 ← xs.get? 0
  let x2 ← xs.get? 1
  let x3 ← xs.get? 2
  let v2 ← Park.f2 xs
  let a := (1 + Real.sin x1 / 10) * v2
  let b := 2 * x1 ^ 2 + x2 ^ 2 + x3 ^ 2 + 0.5
  pure (a - b)

/-- Embeds `Park`'s `input_domain`. -/
def Park.input_domain : List Interval :=
  [zeroToOne, zeroToOne, zeroToOne, zeroToOne]

/-- Embeds `Park::evaluate`; note the first pair's cost is the constant `TEN`,
not `ONE`. -/
noncomputable def Park.evaluate (self : Park) (xs : List ℝ) : Option Outputs := do
  let v1 ← Park.f1 xs
  let v2 ← Park.f2 xs
  pure [(10, some v1), (self.costFactor, some v2)]

/-- Embeds `Park`'s overriding `max_cost`. -/
def Park.max_cost (self : Park) : ℕ :=
  self.costFactor

/-- Embeds `Park::default()` (`Self::new(TEN)`). -/
def parkDefault : Park :=
  ⟨10, by norm_num, by norm_num⟩

/-- Embeds `Park::new(5)`, a legal constructor argument (`NonZeroU64`). -/
def parkFive : Park :=
  ⟨5, by norm_num, by norm_num⟩

/-! ### `src/mfso.rs`: `Borehole` -/

/-- Embeds `Borehole { cost_factor: NonZeroU64 }`. -/
structure Borehole where
  costFactor : ℕ
  costFactor_pos : 0 < costFactor
  costFactor_lt : costFactor < 2 ^ 64

/-- Embeds `Borehole::f2`. -/
noncomputable def Borehole.f2 (xs : List ℝ) : Option ℝ := do
  let x1 ← xs.get? 0
  let x2 ← xs.get? 1
  let x3 ← xs.get? 2
  let x4 ← xs.get? 3
  let x5 ← xs.get? 4
  let x6 ← xs.get? 5
  let x7 ← xs.get? 6
  let x8 ← xs.get? 7
  let a := 2 * Real.pi * x3 * (x4 - x6)
  let b := Real.log (x2 / x1)
  let c := 1 + (2 * x7 * x3) / (b * x1 ^ 2 * x8) + x3 / x5
  pure (a / (b * c))

/-- Embeds `Borehole::f1`. -/
noncomputable def Borehole.f1 (xs : List ℝ) : Option ℝ := do
  let x1 ← xs.get? 0
  let x2 ← xs.get? 1
  let x3 ← xs.get? 2
  let x4 ← xs.get? 3
  let x5 ← xs.get? 4
  let x6 ← xs.get? 5
  let x7 ← xs.get? 6
  let x8 ← xs.get? 7
  let a := 5 * x3 * (x4 - x6)
  let b := Real.log (x2 / x1)
  let c := 1.5 + (2 * x7 * x3) / (b * x1 ^ 2 * x8) + x3 / x5
  pure (a / (b * c))

/-- Embeds `Borehole`'s `input_domain` (eight `new_unchecked` intervals). -/
def Borehole.input_domain : List Interval :=
  [Interval.new_unchecked 0.05 0.15,
   Interval.new_unchecked 100 50000,
   Interval.new_unchecked 63070 115600,
   Interval.new_unchecked 990 1110,
   Interval.new_unchecked 63.1 116,
   Interval.new_unchecked 700 820,
   Interval.new_unchecked 1120 1680,
   Interval.new_unchecked 9855 12045]

/-- Embeds `Borehole::evaluate`. -/
noncomputable def Borehole.evaluate (self : Borehole) (xs : List ℝ) :
    Option Outputs := do
  let v1 ← Borehole.f1 xs
  let v2 ← Borehole.f2 xs
  pure [(1, some v1), (self.costFactor, some v2)]

/-- Embeds `Borehole`'s overriding `max_cost`. -/
def Borehole.max_cost (self : Borehole) : ℕ :=
  self.costFactor

/-- Embeds `Borehole::default()` (`Self::new(TEN)`). -/
def boreholeDefault : Borehole :=
  ⟨10, by norm_num, by norm_num⟩

/-! ### `src/mfso.rs`: `Hartmann3d` and `Hartmann6d` -/

/-- Embeds the shared `ALPHA` constant of the Hartmann `alpha` methods. -/
noncomputable def hartALPHA (i : ℕ) : ℝ :=
  [(1 : ℝ), 1.2, 3, 3.2].getD i 0

/-- Embeds the shared `DELTA` constant of the Hartmann `alpha` methods. -/
noncomputable def hartDELTA (i : ℕ) : ℝ :=
  [(0.01 : ℝ), -0.01, -0.1, 0.1].getD i 0

/-- Embeds `Hartmann3d { max_fidelity: NonZeroU8, cost_factor: NonZeroU64 }`. -/
structure Hartmann3d where
  maxFidelity : ℕ
  maxFidelity_pos : 0 < maxFidelity
  maxFidelity_lt : maxFidelity < 2 ^ 8
  costFactor : ℕ
  costFactor_pos : 0 < costFactor
  costFactor_lt : costFactor < 2 ^ 64

/-- Embeds `Hartmann3d::alpha`: `ALPHA[i] + (max_fidelity - m) as f64 * DELTA[i]`
(the `u8` subtraction; `alpha` is only called with `1 <= m <= max_fidelity`). -/
noncomputable def Hartmann3d.alpha (self : Hartmann3d) (m i : ℕ) : ℝ :=
  hartALPHA i + ((self.maxFidelity - m : ℕ) : ℝ) * hartDELTA i

/-- Embeds the `A` constant of `Hartmann3d::f`. -/
noncomputable def hartmann3dA (i j : ℕ) : ℝ :=
  ([[(3 : ℝ), 10, 30], [0.1, 10, 35], [3, 10, 30], [0.1, 10, 35]].getD i []).getD j 0

/-- Embeds the `P` constant of `Hartmann3d::f`. -/
noncomputable def hartmann3dP (i j : ℕ) : ℝ :=
  ([[(0.3689 : ℝ), 0.1170, 0.2673], [0.4699, 0.4387, 0.7470],
    [0.1091, 0.8732, 0.5547], [0.0381, 0.5743, 0.8828]].getD i []).getD j 0

/-- Embeds `Hartmann3d::f`; indexing `xs[j]` is `Option`-valued because a point
shorter than 3 makes the pull panic. -/
noncomputable def Hartmann3d.f (self : Hartmann3d) (m : ℕ) (xs : List ℝ) :
    Option ℝ := do
  let terms ← (List.range 4).mapM fun i => do
    let sq ← (List.range 3).mapM fun j => do
      let xj ← xs.get? j
      pure (hartmann3dA i j * (xj - hartmann3dP i j) ^ 2)
    pure (self.alpha m i * Real.exp (-sq.sum))
  pure terms.sum

/-- Embeds `Hartmann3d`'s `input_domain`. -/
def Hartmann3d.input_domain : List Interval :=
  [zeroToOne, zeroToOne, zeroToOne]

/-- Embeds `Hartmann3d::evaluate`: a lazily produced pair per tier index
`m < max_fidelity`, pairing cost `cost_factor.pow(m)` (wrapping `u64` power)
with `f(m + 1, xs)`. -/
noncomputable def Hartmann3d.evaluate (self : Hartmann3d) (xs : List ℝ) :
    Outputs :=
  (List.range self.maxFidelity).map fun m =>
    (self.costFactor ^ m % 2 ^ 64, self.f (m + 1) xs)

/-- Embeds `Hartmann3d`'s overriding `max_cost`:
`cost_factor.pow(max_fidelity)` (wrapping `u64` power). -/
def Hartmann3d.max_cost (self : Hartmann3d) : ℕ :=
  self.costFactor ^ self.maxFidelity % 2 ^ 64

/-- Embeds `Hartmann3d::default()` (`Self::new(3, TEN)`). -/
def hartmann3dDefault : Hartmann3d :=
  ⟨3, by norm_num, by norm_num, 10, by norm_num, by norm_num⟩

/-- Embeds `Hartmann6d { max_fidelity: NonZeroU8, cost_factor: NonZeroU64 }`. -/
structure Hartmann6d where
  maxFidelity : ℕ
  maxFidelity_pos : 0 < maxFidelity
  maxFidelity_lt : maxFidelity < 2 ^ 8
  costFactor : ℕ
  costFactor_pos : 0 < costFactor
  costFactor_lt : costFactor < 2 ^ 64

/-- Embeds `Hartmann6d::alpha` (same `ALPHA`/`DELTA` tables as `Hartmann3d`). -/
noncomputable def Hartmann6d.alpha (self : Hartmann6d) (m i : ℕ) : ℝ :=
  hartALPHA i + ((self.maxFidelity - m : ℕ) : ℝ) * hartDELTA i

/-- Embeds the `A` constant of `Hartmann6d::f`. -/
noncomputable def hartmann6dA (i j : ℕ) : ℝ :=
  ([[(10 : ℝ), 3, 17, 3.5, 1.7, 8], [0.05, 10, 17, 0.1, 8, 14],
    [3, 3.5, 1.7, 10, 17, 8], [17, 8, 0.05, 10, 0.1, 14]].getD i []).getD j 0

/-- Embeds the `P` constant of `Hartmann6d::f`. -/
noncomputable def hartmann6dP (i j : ℕ) : ℝ :=
  ([[(0.1312 : ℝ), 0.1696, 0.5569, 0.0124, 0.8283, 0.5886],
    [0.2329, 0.4135, 0.8307, 0.3736, 0.1004, 0.9991],
    [0.2348, 0.1451, 0.3522, 0.2883, 0.3047, 0.6650],
    [0.4047, 0.8828, 0.8732, 0.5743, 0.1091, 0.0381]].getD i []).getD j 0

/-- Embeds `Hartmann6d::f`. -/
noncomputable def Hartmann6d.f (self : Hartmann6d) (m : ℕ) (xs : List ℝ) :
    Option ℝ := do
  let terms ← (List.range 4).mapM fun i => do
    let sq ← (List.range 6).mapM fun j => do
      let xj ← xs.get? j
      pure (hartmann6dA i j * (xj - hartmann6dP i j) ^ 2)
    pure (self.alpha m i * Real.exp (-sq.sum))
  pure terms.sum

/-- Embeds `Hartmann6d`'s `input_domain`. -/
def Hartmann6d.input_domain : List Interval :=
  [zeroToOne, zeroToOne, zeroToOne, zeroToOne, zeroToOne, zeroToOne]

/-- Embeds `Hartmann6d::evaluate`. -/
noncomputable def Hartmann6d.evaluate (self : Hartmann6d) (xs : List ℝ) :
    Outputs :=
  (List.range self.maxFidelity).map fun m =>
    (self.costFactor ^ m % 2 ^ 64, self.f (m + 1) xs)

/-- Embeds `Hartmann6d`'s overriding `max_cost`. -/
def Hartmann6d.max_cost (self : Hartmann6d) : ℕ :=
  self.costFactor ^ self.maxFidelity % 2 ^ 64

/-- Embeds `Hartmann6d::default()` (`Self::new(4, TEN)`). -/
def hartmann6dDefault : Hartmann6d :=
  ⟨4, by norm_num, by norm_num, 10, by norm_num, by norm_num⟩

/-- Follows the words of claim C10 (not the source): the standard unperturbed
Hartmann-3D formula, i.e. the per-tier formula with coefficient `ALPHA[i]` and
no `DELTA` perturbation. -/
noncomputable def hartmann3dStandard (xs : List ℝ) : Option ℝ := do
  let terms ← (List.range 4).mapM fun i => do
    let sq ← (List.range 3).mapM fun j => do
      let xj ← xs.get? j
      pure (hartmann3dA i j * (xj - hartmann3dP i j) ^ 2)
    pure (hartALPHA i * Real.exp (-sq.sum))
  pure terms.sum

/-- Follows the words of claim C10 (not the source): the standard unperturbed
Hartmann-6D formula. -/
noncomputable def hartmann6dStandard (xs : List ℝ) : Option ℝ := do
  let terms ← (List.range 4).mapM fun i => do
    let sq ← (List.range 6).mapM fun j => do
      let xj ← xs.get? j
      pure (hartmann6dA i j * (xj - hartmann6dP i j) ^ 2)
    pure (hartALPHA i * Real.exp (-sq.sum))
  pure terms.sum

/-! ### Theorems -/

/-- C5: for all inputs `min` and `max`, `Interval::new(min, max)` returns
nothing (`none`) if `min > max`, and otherwise returns a valid interval on
which `min() <= max()` holds. -/
theorem interval_new_spec (mn mx : ℚ) :
    (mn > mx → Interval.new mn mx = none) ∧
    (mn ≤ mx → Interval.new mn mx = some ⟨mn, mx⟩ ∧
      (Interval.mk mn mx).min ≤ (Interval.mk mn mx).max) := by
  constructor
  · intro h
    simp [Interval.new, not_le.mpr h]
  · intro h
    exact ⟨by simp [Interval.new, h], h⟩

/-- Witness for C5: both branches of `interval_new_spec` at concrete inputs. -/
theorem interval_new_spec_witness :
    ((1 : ℚ) > 0 ∧ Interval.new 1 0 = none) ∧
    ((0 : ℚ) ≤ 1 ∧ Interval.new 0 1 = some ⟨0, 1⟩ ∧
      (Interval.mk 0 1).min ≤ (Interval.mk 0 1).max) :=
  ⟨⟨by norm_num, (interval_new_spec 1 0).1 (by norm_num)⟩,
   by norm_num, (interval_new_spec 0 1).2 (by norm_num)⟩

set_option maxHeartbeats 1600000 in
/-- C8: `ResolutionError3::theta(phi)` fails (panics, modelled by `none`)
exactly when `phi < 0` or `phi >= 10000`, and succeeds exactly when
`0 <= phi < 10000`. -/
theorem resolutionError3_theta_domain (phi : ℚ) :
    (ResolutionError3.theta phi = none ↔ phi < 0 ∨ 10000 ≤ phi) ∧
    ((ResolutionError3.theta phi).isSome ↔ 0 ≤ phi ∧ phi < 10000) := by
  unfold ResolutionError3.theta
  by_cases h0 : 0 ≤ phi
  · by_cases hlt : phi < 10000
    · rw [if_neg (not_not_intro h0), if_neg (not_not_intro hlt)]
      constructor
      · apply iff_of_false
        · split_ifs <;> exact not_false
        · rintro (h | h) <;> linarith
      · apply iff_of_true
        · split_ifs <;> rfl
        · exact ⟨h0, hlt⟩
    · rw [if_neg (not_not_intro h0), if_pos hlt]
      constructor
      · exact iff_of_true rfl (Or.inr (not_lt.mp hlt))
      · apply iff_of_false
        · exact fun hx => Bool.noConfusion hx
        · intro h
          exact hlt h.2
  · rw [if_pos h0]
    constructor
    · exact iff_of_true rfl (Or.inl (not_le.mp h0))
    · apply iff_of_false
      · exact fun hx => Bool.noConfusion hx
      · intro h
        exact h0 h.1

/-- C2 (amended): `ResolutionError3::theta` equals `0.4` on the band
`[5000, 6000)`; on `[6000, 7000)` it equals `1.6 - 0.0002 * phi` instead. -/
theorem resolutionError3_theta_bands (phi : ℚ) :
    (5000 ≤ phi → phi < 6000 → ResolutionError3.theta phi = some 0.4) ∧
    (6000 ≤ phi → phi < 7000 →
      ResolutionError3.theta phi = some (1.6 - 0.0002 * phi)) := by
  constructor <;> intro h1 h2 <;> unfold ResolutionError3.theta <;>
    split_ifs with g1 g2 g3 g4 g5 g6 g7 g8 g9 g10 g11 <;>
      first
        | rfl
        | (exfalso; simp only [not_le, not_lt] at g1 g2; linarith)
        | (exfalso; linarith)

/-- Counterexample for C2: at `phi = 6500` (inside `[6000, 7000)`) `theta`
returns `0.3`, not `0.4`. -/
theorem resolutionError3_theta_6500_ne :
    ¬ (ResolutionError3.theta 6500 = some 0.4) := by
  norm_num [ResolutionError3.theta]

/-- Witness for C2 (amended): both bands of `resolutionError3_theta_bands`
at concrete fidelity values. -/
theorem resolutionError3_theta_bands_witness :
    ((5000 : ℚ) ≤ 5500 ∧ (5500 : ℚ) < 6000 ∧
      ResolutionError3.theta 5500 = some 0.4) ∧
    ((6000 : ℚ) ≤ 6500 ∧ (6500 : ℚ) < 7000 ∧
      ResolutionError3.theta 6500 = some (1.6 - 0.0002 * 6500)) :=
  ⟨⟨by norm_num, by norm_num,
      (resolutionError3_theta_bands 5500).1 (by norm_num) (by norm_num)⟩,
   ⟨by norm_num, by norm_num,
      (resolutionError3_theta_bands 6500).2 (by norm_num) (by norm_num)⟩⟩

/-- Witness for C8: `theta` fails at `phi = -1` and succeeds at `phi = 5000`. -/
theorem resolutionError3_theta_domain_witness :
    ResolutionError3.theta (-1) = none ∧
    (ResolutionError3.theta 5000).isSome :=
  ⟨(resolutionError3_theta_domain (-1)).1.mpr (Or.inl (by norm_num)),
   (resolutionError3_theta_domain 5000).2.mpr ⟨by norm_num, by norm_num⟩⟩

/-- C1 (amended): for `Hartmann3d` with `max_fidelity = 3` and
`cost_factor = 10`, the cost sequence of one evaluation at any 3-dimensional
point is exactly `[10^0, 10^1, 10^2]` in order, and the (closed-form, not
sequence-draining) `max_cost()` returns `10^3 = 1000`. -/
theorem hartmann3d_default_costs_and_max_cost (xs : List ℝ)
    (h : xs.length = 3) :
    (Hartmann3d.evaluate hartmann3dDefault xs).map Prod.fst = [1, 10, 100] ∧
    Hartmann3d.max_cost hartmann3dDefault = 1000 := by
  constructor
  · have hr : List.range (3 : ℕ) = [0, 1, 2] := rfl
    norm_num [Hartmann3d.evaluate, hartmann3dDefault, hr, Function.comp]
  · decide

/-- Witness for C1 (amended): the point `[0, 0, 0]` has length 3 and the
conclusion holds there. -/
theorem hartmann3d_default_costs_and_max_cost_witness :
    ([(0 : ℝ), 0, 0].length = 3) ∧
    ((Hartmann3d.evaluate hartmann3dDefault [(0 : ℝ), 0, 0]).map Prod.fst
        = [1, 10, 100] ∧
      Hartmann3d.max_cost hartmann3dDefault = 1000) :=
  ⟨rfl, hartmann3d_default_costs_and_max_cost [(0 : ℝ), 0, 0] rfl⟩

/-- Counterexample for C1: `max_cost()` of the `max_fidelity = 3`,
`cost_factor = 10` instance is not `10^2` (it is `10^3`). -/
theorem hartmann3d_default_max_cost_ne_100 :
    ¬ (Hartmann3d.max_cost hartmann3dDefault = 10 ^ 2) := by
  decide

/-- C3 (amended): `CurrinExponential::evaluate` performs no dimension check:
it succeeds exactly when the point has at least 2 coordinates (fewer panics via
out-of-bounds indexing inside `f1`/`f2`; more than 2 succeeds, silently
ignoring the extra coordinates). -/
theorem currin_evaluate_isSome_iff (self : CurrinExponential) (xs : List ℝ) :
    (CurrinExponential.evaluate self xs).isSome ↔ 2 ≤ xs.length := by
  match xs with
  | [] =>
    simp [CurrinExponential.evaluate, CurrinExponential.f1]
  | [x] =>
    simp [CurrinExponential.evaluate, CurrinExponential.f1]
  | x :: y :: t =>
    simp only [CurrinExponential.evaluate, CurrinExponential.f1,
      CurrinExponential.f2, List.get?_cons_zero, List.get?_cons_succ,
      Option.some_bind, Option.isSome_some, List.length_cons]
    constructor
    · intro
      omega
    · intro
      rfl

/-- Counterexample for C3: a 3-dimensional point (length ≠ 2) does not make
`CurrinExponential::evaluate` fail; it evaluates successfully. -/
theorem currin_evaluate_len3_succeeds :
    ¬ ([(0 : ℝ), 0, 0].length = 2) ∧
    (CurrinExponential.evaluate currinDefault [(0 : ℝ), 0, 0]).isSome = true := by
  refine ⟨by norm_num, ?_⟩
  rfl

/-- Witness for C3 (amended): a 2-dimensional point makes `evaluate` succeed. -/
theorem currin_evaluate_isSome_iff_witness :
    (CurrinExponential.evaluate currinDefault [(1 : ℝ), 2]).isSome :=
  (currin_evaluate_isSome_iff currinDefault [(1 : ℝ), 2]).mpr (by norm_num)

/-- Outputs iterators are lists dropped one element per pull. -/
theorem Outputs.stateAfter_eq_drop (o : Outputs) (n : ℕ) :
    Outputs.stateAfter o n = o.drop n := by
  induction n generalizing o with
  | zero => rfl
  | succ n ih =>
    cases o with
    | nil => simpa [Outputs.stateAfter, Outputs.next] using ih []
    | cons x rest => simpa [Outputs.stateAfter, Outputs.next] using ih rest

/-- C9: an `Outputs` sequence (as produced by one `evaluate` call of any of
the concrete multi-fidelity functions) is finite and single-pass: once the
number of pulls reaches its length the iterator state is exhausted, and every
further `next` yields `none` and leaves the state exhausted. -/
theorem outputs_single_pass (o : Outputs) (n : ℕ) (h : o.length ≤ n) :
    Outputs.stateAfter o n = [] ∧
    (Outputs.stateAfter o n).next = (none, []) := by
  have he : Outputs.stateAfter o n = [] := by
    rw [Outputs.stateAfter_eq_drop]
    exact List.drop_eq_nil_of_le h
  exact ⟨he, by rw [he]; rfl⟩

/-- Witness for C9: the sequence produced by the default `Hartmann3d` at the
origin has length 3, and after 3 pulls it is exhausted with `next` = `none`. -/
theorem outputs_single_pass_witness :
    (Hartmann3d.evaluate hartmann3dDefault [(0 : ℝ), 0, 0]).length ≤ 3 ∧
    (Outputs.stateAfter (Hartmann3d.evaluate hartmann3dDefault [(0 : ℝ), 0, 0]) 3 = [] ∧
      (Outputs.stateAfter (Hartmann3d.evaluate hartmann3dDefault [(0 : ℝ), 0, 0]) 3).next
        = (none, [])) := by
  have hl : (Hartmann3d.evaluate hartmann3dDefault [(0 : ℝ), 0, 0]).length ≤ 3 := by
    simp [Hartmann3d.evaluate, hartmann3dDefault]
  exact ⟨hl, outputs_single_pass _ 3 hl⟩

/-- Cost schedules `cost_factor^m % 2^64` for `m < k` are non-decreasing as
long as the largest power does not wrap. -/
theorem hartmann_cost_schedule_chain (c k : ℕ) (hc : 0 < c) (hk : 0 < k)
    (hov : c ^ (k - 1) < 2 ^ 64) :
    ((List.range k).map fun m => c ^ m % 2 ^ 64).Chain' (· ≤ ·) := by
  rw [List.chain'_map]
  obtain ⟨k', rfl⟩ : ∃ k', k = k' + 1 := ⟨k - 1, (Nat.succ_pred_eq_of_pos hk).symm⟩
  rw [List.chain'_range_succ]
  intro m hm
  have hov' : c ^ k' < 2 ^ 64 := by simpa using hov
  have e1 : c ^ m % 2 ^ 64 = c ^ m :=
    Nat.mod_eq_of_lt (lt_of_le_of_lt (Nat.pow_le_pow_right hc (by omega)) hov')
  have e2 : c ^ (m + 1) % 2 ^ 64 = c ^ (m + 1) :=
    Nat.mod_eq_of_lt (lt_of_le_of_lt (Nat.pow_le_pow_right hc (by omega)) hov')
  rw [e1, e2]
  exact Nat.pow_le_pow_right hc (Nat.le_succ m)

/-- C6 (amended): the cost components of one `evaluate` call are non-decreasing
for `CurrinExponential` and `Borehole` at every cost factor, for `Park` only
when `cost_factor >= 10` (its first pair's cost is the constant `10`), and for
`Hartmann3d`/`Hartmann6d` whenever the top-tier power of the cost factor does
not wrap around `u64`. -/
theorem concrete_costs_nondecreasing
    (c : CurrinExponential) (b : Borehole) (p : Park)
    (h3 : Hartmann3d) (h6 : Hartmann6d)
    (xs1 xs2 xs3 xs4 xs5 : List ℝ)
    (hp : 10 ≤ p.costFactor)
    (h3ov : h3.costFactor ^ (h3.maxFidelity - 1) < 2 ^ 64)
    (h6ov : h6.costFactor ^ (h6.maxFidelity - 1) < 2 ^ 64) :
    (costsOf (CurrinExponential.evaluate c xs1)).Chain' (· ≤ ·) ∧
    (costsOf (Borehole.evaluate b xs2)).Chain' (· ≤ ·) ∧
    (costsOf (Park.evaluate p xs3)).Chain' (· ≤ ·) ∧
    ((Hartmann3d.evaluate h3 xs4).map Prod.fst).Chain' (· ≤ ·) ∧
    ((Hartmann6d.evaluate h6 xs5).map Prod.fst).Chain' (· ≤ ·) := by
  refine ⟨?_, ?_, ?_, ?_, ?_⟩
  · rcases hf1 : CurrinExponential.f1 xs1 with _ | v1
    · simp [costsOf, CurrinExponential.evaluate, hf1]
    · rcases hf2 : CurrinExponential.f2 xs1 with _ | v2
      · simp [costsOf, CurrinExponential.evaluate, hf1, hf2]
      · simp [costsOf, CurrinExponential.evaluate, hf1, hf2, List.chain'_cons]
        exact c.costFactor_pos
  · rcases hf1 : Borehole.f1 xs2 with _ | v1
    · simp [costsOf, Borehole.evaluate, hf1]
    · rcases hf2 : Borehole.f2 xs2 with _ | v2
      · simp [costsOf, Borehole.evaluate, hf1, hf2]
      · simp [costsOf, Borehole.evaluate, hf1, hf2, List.chain'_cons]
        exact b.costFactor_pos
  · rcases hf1 : Park.f1 xs3 with _ | v1
    · simp [costsOf, Park.evaluate, hf1]
    · rcases hf2 : Park.f2 xs3 with _ | v2
      · simp [costsOf, Park.evaluate, hf1, hf2]
      · simp [costsOf, Park.evaluate, hf1, hf2, List.chain'_cons]
        exact hp
  · simp only [Hartmann3d.evaluate, List.map_map, Function.comp_def]
    exact hartmann_cost_schedule_chain h3.costFactor h3.maxFidelity
      h3.costFactor_pos h3.maxFidelity_pos h3ov
  · simp only [Hartmann6d.evaluate, List.map_map, Function.comp_def]
    exact hartmann_cost_schedule_chain h6.costFactor h6.maxFidelity
      h6.costFactor_pos h6.maxFidelity_pos h6ov

/-- Counterexample for C6: `Park` constructed with `cost_factor = 5` emits the
cost sequence `[10, 5]`, which is decreasing. -/
theorem park_cost_factor_5_costs_decreasing :
    ¬ ((costsOf (Park.evaluate parkFive [(0 : ℝ), 0, 0, 0])).Chain' (· ≤ ·)) := by
  have hc : costsOf (Park.evaluate parkFive [(0 : ℝ), 0, 0, 0]) = [10, 5] := rfl
  rw [hc]
  norm_num [List.chain'_cons]

/-- Witness for C6 (amended): all five conjuncts at the default
configurations and concrete points. -/
theorem concrete_costs_nondecreasing_witness :
    (10 ≤ parkDefault.costFactor ∧
      hartmann3dDefault.costFactor ^ (hartmann3dDefault.maxFidelity - 1) < 2 ^ 64 ∧
      hartmann6dDefault.costFactor ^ (hartmann6dDefault.maxFidelity - 1) < 2 ^ 64) ∧
    ((costsOf (CurrinExponential.evaluate currinDefault [])).Chain' (· ≤ ·) ∧
      (costsOf (Borehole.evaluate boreholeDefault [])).Chain' (· ≤ ·) ∧
      (costsOf (Park.evaluate parkDefault [])).Chain' (· ≤ ·) ∧
      ((Hartmann3d.evaluate hartmann3dDefault []).map Prod.fst).Chain' (· ≤ ·) ∧
      ((Hartmann6d.evaluate hartmann6dDefault []).map Prod.fst).Chain' (· ≤ ·)) := by
  have hp : 10 ≤ parkDefault.costFactor := by decide
  have h3ov : hartmann3dDefault.costFactor ^ (hartmann3dDefault.maxFidelity - 1)
      < 2 ^ 64 := by decide
  have h6ov : hartmann6dDefault.costFactor ^ (hartmann6dDefault.maxFidelity - 1)
      < 2 ^ 64 := by decide
  exact ⟨⟨hp, h3ov, h6ov⟩,
    concrete_costs_nondecreasing currinDefault boreholeDefault parkDefault
      hartmann3dDefault hartmann6dDefault [] [] [] [] [] hp h3ov h6ov⟩

/-- Last element of a mapped range. -/
theorem getLast?_range_map {α : Type} (g : ℕ → α) (n : ℕ) (hn : 0 < n) :
    ((List.range n).map g).getLast? = some (g (n - 1)) := by
  obtain ⟨m, rfl⟩ : ∃ m, n = m + 1 := ⟨n - 1, (Nat.succ_pred_eq_of_pos hn).symm⟩
  rw [List.range_succ, List.map_append]
  simp

/-- C4 (amended): the drain-based default `max_cost` fallback agrees with the
closed-form override for `CurrinExponential`, `Park` and `Borehole`, but for
`Hartmann3d`/`Hartmann6d` the fallback yields `cost_factor^(max_fidelity-1)`
(the last produced cost) while the override returns one extra factor,
`cost_factor * cost_factor^(max_fidelity-1)` (all powers wrapping mod `2^64`). -/
theorem max_cost_override_vs_drain
    (c : CurrinExponential) (p : Park) (b : Borehole)
    (h3 : Hartmann3d) (h6 : Hartmann6d) :
    drainMaxCost CurrinExponential.input_domain (CurrinExponential.evaluate c)
        = some (CurrinExponential.max_cost c) ∧
    drainMaxCost Park.input_domain (Park.evaluate p)
        = some (Park.max_cost p) ∧
    drainMaxCost Borehole.input_domain (Borehole.evaluate b)
        = some (Borehole.max_cost b) ∧
    drainMaxCost Hartmann3d.input_domain
        (fun xs => some (Hartmann3d.evaluate h3 xs))
        = some (h3.costFactor ^ (h3.maxFidelity - 1) % 2 ^ 64) ∧
    Hartmann3d.max_cost h3
        = h3.costFactor * h3.costFactor ^ (h3.maxFidelity - 1) % 2 ^ 64 ∧
    drainMaxCost Hartmann6d.input_domain
        (fun xs => some (Hartmann6d.evaluate h6 xs))
        = some (h6.costFactor ^ (h6.maxFidelity - 1) % 2 ^ 64) ∧
    Hartmann6d.max_cost h6
        = h6.costFactor * h6.costFactor ^ (h6.maxFidelity - 1) % 2 ^ 64 := by
  refine ⟨rfl, rfl, rfl, ?_, ?_, ?_, ?_⟩
  · simp only [drainMaxCost, Option.some_bind]
    rw [Hartmann3d.evaluate,
      getLast?_range_map _ _ h3.maxFidelity_pos]
    rfl
  · have hm : h3.maxFidelity - 1 + 1 = h3.maxFidelity :=
      Nat.succ_pred_eq_of_pos h3.maxFidelity_pos
    calc Hartmann3d.max_cost h3
        = h3.costFactor ^ (h3.maxFidelity - 1 + 1) % 2 ^ 64 := by rw [hm]; rfl
      _ = h3.costFactor * h3.costFactor ^ (h3.maxFidelity - 1) % 2 ^ 64 := by
          rw [pow_succ, Nat.mul_comm]
  · simp only [drainMaxCost, Option.some_bind]
    rw [Hartmann6d.evaluate,
      getLast?_range_map _ _ h6.maxFidelity_pos]
    rfl
  · have hm : h6.maxFidelity - 1 + 1 = h6.maxFidelity :=
      Nat.succ_pred_eq_of_pos h6.maxFidelity_pos
    calc Hartmann6d.max_cost h6
        = h6.costFactor ^ (h6.maxFidelity - 1 + 1) % 2 ^ 64 := by rw [hm]; rfl
      _ = h6.costFactor * h6.costFactor ^ (h6.maxFidelity - 1) % 2 ^ 64 := by
          rw [pow_succ, Nat.mul_comm]

/-- Witness for C4 (amended): the conclusion at the default configurations. -/
theorem max_cost_override_vs_drain_witness :
    drainMaxCost CurrinExponential.input_domain
        (CurrinExponential.evaluate currinDefault)
        = some (CurrinExponential.max_cost currinDefault) ∧
    drainMaxCost Park.input_domain (Park.evaluate parkDefault)
        = some (Park.max_cost parkDefault) ∧
    drainMaxCost Borehole.input_domain (Borehole.evaluate boreholeDefault)
        = some (Borehole.max_cost boreholeDefault) ∧
    drainMaxCost Hartmann3d.input_domain
        (fun xs => some (Hartmann3d.evaluate hartmann3dDefault xs))
        = some (hartmann3dDefault.costFactor
            ^ (hartmann3dDefault.maxFidelity - 1) % 2 ^ 64) ∧
    Hartmann3d.max_cost hartmann3dDefault
        = hartmann3dDefault.costFactor * hartmann3dDefault.costFactor
            ^ (hartmann3dDefault.maxFidelity - 1) % 2 ^ 64 ∧
    drainMaxCost Hartmann6d.input_domain
        (fun xs => some (Hartmann6d.evaluate hartmann6dDefault xs))
        = some (hartmann6dDefault.costFactor
            ^ (hartmann6dDefault.maxFidelity - 1) % 2 ^ 64) ∧
    Hartmann6d.max_cost hartmann6dDefault
        = hartmann6dDefault.costFactor * hartmann6dDefault.costFactor
            ^ (hartmann6dDefault.maxFidelity - 1) % 2 ^ 64 :=
  max_cost_override_vs_drain currinDefault parkDefault boreholeDefault
    hartmann3dDefault hartmann6dDefault

/-- Counterexample for C4: for the default `Hartmann3d` the drain-based
fallback yields `100` while the overridden closed form returns `1000`. -/
theorem hartmann3d_override_ne_drain :
    drainMaxCost Hartmann3d.input_domain
        (fun xs => some (Hartmann3d.evaluate hartmann3dDefault xs)) = some 100 ∧
    Hartmann3d.max_cost hartmann3dDefault = 1000 ∧
    ¬ (some (Hartmann3d.max_cost hartmann3dDefault)
        = drainMaxCost Hartmann3d.input_domain
            (fun xs => some (Hartmann3d.evaluate hartmann3dDefault xs))) := by
  refine ⟨rfl, rfl, ?_⟩
  intro hx
  exact absurd (Option.some.inj hx) (by decide)

/-- Envelope bound: the aggregate `ResolutionError1` error is bounded in
magnitude by the point's dimension times the amplitude `theta(phi)`. -/
theorem resolutionError1_error_abs_le (xs : List ℝ) (phi : ℝ)
    (h : 0 ≤ ResolutionError1.theta phi) :
    |ResolutionError1.error xs phi|
      ≤ xs.length * ResolutionError1.theta phi := by
  induction xs with
  | nil => simp [ResolutionError1.error]
  | cons x t ih =>
    have habs : |ResolutionError1.a x phi *
        Real.cos (ResolutionError1.w phi * x + ResolutionError1.b phi + Real.pi)|
        ≤ ResolutionError1.theta phi := by
      rw [abs_mul, ResolutionError1.a]
      calc |ResolutionError1.theta phi| *
            |Real.cos (ResolutionError1.w phi * x + ResolutionError1.b phi + Real.pi)|
          ≤ ResolutionError1.theta phi * 1 := by
            rw [abs_of_nonneg h]
            exact mul_le_mul_of_nonneg_left (Real.abs_cos_le_one _) h
        _ = ResolutionError1.theta phi := mul_one _
    have hstep : ResolutionError1.error (x :: t) phi
        = ResolutionError1.a x phi *
            Real.cos (ResolutionError1.w phi * x + ResolutionError1.b phi + Real.pi)
          + ResolutionError1.error t phi := by
      simp [ResolutionError1.error]
    rw [hstep]
    refine le_trans (abs_add _ _) ?_
    have hlen : ((x :: t).length : ℝ) = (t.length : ℝ) + 1 := by
      push_cast [List.length_cons]
      ring
    rw [hlen]
    nlinarith [habs, ih]

/-- C7 (amended): pointwise monotone decay of `|error|` fails (see the
counterexample), but the decaying-amplitude property does hold in envelope
form: for fidelities `0 <= phi1 < phi2 < 10000` the error magnitude at `phi2`
is bounded by `dim * theta(phi2)`, and the amplitude `theta` is strictly
smaller at `phi2` than at `phi1`. -/
theorem resolutionError1_envelope_decay (xs : List ℝ) (phi1 phi2 : ℝ)
    (h0 : 0 ≤ phi1) (h12 : phi1 < phi2) (h2 : phi2 < 10000) :
    |ResolutionError1.error xs phi2|
        ≤ xs.length * ResolutionError1.theta phi2 ∧
    ResolutionError1.theta phi2 < ResolutionError1.theta phi1 := by
  constructor
  · apply resolutionError1_error_abs_le
    simp only [ResolutionError1.theta]
    nlinarith
  · simp only [ResolutionError1.theta]
    nlinarith

/-- Witness for C7 (amended): the envelope bound and strict amplitude decay
at the point `[0]` between fidelities `0` and `5000`. -/
theorem resolutionError1_envelope_decay_witness :
    ((0 : ℝ) ≤ 0 ∧ (0 : ℝ) < 5000 ∧ (5000 : ℝ) < 10000) ∧
    (|ResolutionError1.error [0] 5000|
        ≤ ([(0 : ℝ)] : List ℝ).length * ResolutionError1.theta 5000 ∧
      ResolutionError1.theta 5000 < ResolutionError1.theta 0) :=
  ⟨⟨le_refl 0, by norm_num, by norm_num⟩,
   resolutionError1_envelope_decay [0] 0 5000 (le_refl 0) (by norm_num)
     (by norm_num)⟩

/-- Counterexample for C7: at the fixed point `[0]`, the aggregate error of
`ResolutionError1` is `0` at the lower fidelity `phi = 0` but `-sqrt 2 / 4` at
the higher fidelity `phi = 5000`, so the higher-fidelity error is *not* closer
to zero. -/
theorem resolutionError1_error_not_pointwise_decaying :
    ¬ (|ResolutionError1.error [0] 5000| ≤ |ResolutionError1.error [0] 0|) := by
  have h1 : ResolutionError1.theta 0 = 1 := by
    norm_num [ResolutionError1.theta]
  have hlow : ResolutionError1.error [0] 0 = 0 := by
    simp only [ResolutionError1.error, ResolutionError1.a, ResolutionError1.w,
      ResolutionError1.b, List.map_cons, List.map_nil, List.sum_cons,
      List.sum_nil, h1]
    have harg : 10 * Real.pi * 1 * 0 + 0.5 * Real.pi * 1 + Real.pi
        = Real.pi / 2 + Real.pi := by ring
    rw [harg, Real.cos_add_pi, Real.cos_pi_div_two]
    ring
  have h2 : ResolutionError1.theta 5000 = 0.5 := by
    norm_num [ResolutionError1.theta]
  have hhigh : ResolutionError1.error [0] 5000 = -(Real.sqrt 2 / 4) := by
    simp only [ResolutionError1.error, ResolutionError1.a, ResolutionError1.w,
      ResolutionError1.b, List.map_cons, List.map_nil, List.sum_cons,
      List.sum_nil, h2]
    have harg : 10 * Real.pi * 0.5 * 0 + 0.5 * Real.pi * 0.5 + Real.pi
        = Real.pi / 4 + Real.pi := by ring
    rw [harg, Real.cos_add_pi, Real.cos_pi_div_four]
    ring
  rw [hlow, hhigh, abs_zero, abs_neg, abs_of_nonneg (by positivity)]
  simp only [not_le]
  positivity

/-- At the top fidelity tier the `DELTA` perturbation of `Hartmann3d::alpha`
vanishes. -/
theorem hartmann3d_alpha_vanishes_at_max (h3 : Hartmann3d) (i : ℕ) :
    h3.alpha h3.maxFidelity i = hartALPHA i := by
  simp [Hartmann3d.alpha, Nat.sub_self]

/-- At the top fidelity tier the `DELTA` perturbation of `Hartmann6d::alpha`
vanishes. -/
theorem hartmann6d_alpha_vanishes_at_max (h6 : Hartmann6d) (i : ℕ) :
    h6.alpha h6.maxFidelity i = hartALPHA i := by
  simp [Hartmann6d.alpha, Nat.sub_self]

/-- `Hartmann3d::f` at the top tier is the standard unperturbed formula. -/
theorem hartmann3d_f_top_eq_standard (h3 : Hartmann3d) (xs : List ℝ) :
    Hartmann3d.f h3 h3.maxFidelity xs = hartmann3dStandard xs := by
  simp only [Hartmann3d.f, hartmann3dStandard, hartmann3d_alpha_vanishes_at_max]

/-- `Hartmann6d::f` at the top tier is the standard unperturbed formula. -/
theorem hartmann6d_f_top_eq_standard (h6 : Hartmann6d) (xs : List ℝ) :
    Hartmann6d.f h6 h6.maxFidelity xs = hartmann6dStandard xs := by
  simp only [Hartmann6d.f, hartmann6dStandard, hartmann6d_alpha_vanishes_at_max]

/-- C10: the Hartmann per-tier coefficient is
`alpha(m, i) = ALPHA[i] + (max_fidelity - m) * DELTA[i]` (for the tiers
`m <= max_fidelity` actually used), the perturbation vanishes at
`m = max_fidelity`, and the final (most expensive) pair of an evaluation
carries the value of the standard unperturbed Hartmann formula. -/
theorem hartmann_alpha_top_tier
    (h3 : Hartmann3d) (h6 : Hartmann6d) (m3 m6 i : ℕ)
    (hm3 : m3 ≤ h3.maxFidelity) (hm6 : m6 ≤ h6.maxFidelity)
    (xs ys : List ℝ) :
    h3.alpha m3 i
        = hartALPHA i + ((h3.maxFidelity : ℝ) - (m3 : ℝ)) * hartDELTA i ∧
    h3.alpha h3.maxFidelity i = hartALPHA i ∧
    (Hartmann3d.evaluate h3 xs).getLast?
        = some (h3.costFactor ^ (h3.maxFidelity - 1) % 2 ^ 64,
            hartmann3dStandard xs) ∧
    h6.alpha m6 i
        = hartALPHA i + ((h6.maxFidelity : ℝ) - (m6 : ℝ)) * hartDELTA i ∧
    h6.alpha h6.maxFidelity i = hartALPHA i ∧
    (Hartmann6d.evaluate h6 ys).getLast?
        = some (h6.costFactor ^ (h6.maxFidelity - 1) % 2 ^ 64,
            hartmann6dStandard ys) := by
  have hm3' : h3.maxFidelity - 1 + 1 = h3.maxFidelity :=
    Nat.succ_pred_eq_of_pos h3.maxFidelity_pos
  have hm6' : h6.maxFidelity - 1 + 1 = h6.maxFidelity :=
    Nat.succ_pred_eq_of_pos h6.maxFidelity_pos
  refine ⟨?_, hartmann3d_alpha_vanishes_at_max h3 i, ?_, ?_, hartmann6d_alpha_vanishes_at_max h6 i, ?_⟩
  · rw [Hartmann3d.alpha, Nat.cast_sub hm3]
  · rw [Hartmann3d.evaluate, getLast?_range_map _ _ h3.maxFidelity_pos,
      hm3', hartmann3d_f_top_eq_standard]
  · rw [Hartmann6d.alpha, Nat.cast_sub hm6]
  · rw [Hartmann6d.evaluate, getLast?_range_map _ _ h6.maxFidelity_pos,
      hm6', hartmann6d_f_top_eq_standard]

/-- Witness for C10: the conclusion instantiated at the default Hartmann
configurations, tiers `3` and `4`, coefficient index `0`, and the origin. -/
theorem hartmann_alpha_top_tier_witness :
    (3 ≤ hartmann3dDefault.maxFidelity ∧ 4 ≤ hartmann6dDefault.maxFidelity) ∧
    (hartmann3dDefault.alpha 3 0
        = hartALPHA 0 + ((hartmann3dDefault.maxFidelity : ℝ) - (3 : ℝ)) * hartDELTA 0 ∧
      hartmann3dDefault.alpha hartmann3dDefault.maxFidelity 0 = hartALPHA 0 ∧
      (Hartmann3d.evaluate hartmann3dDefault [(0 : ℝ), 0, 0]).getLast?
          = some (hartmann3dDefault.costFactor ^ (hartmann3dDefault.maxFidelity - 1) % 2 ^ 64,
              hartmann3dStandard [(0 : ℝ), 0, 0]) ∧
      hartmann6dDefault.alpha 4 0
          = hartALPHA 0 + ((hartmann6dDefault.maxFidelity : ℝ) - (4 : ℝ)) * hartDELTA 0 ∧
      hartmann6dDefault.alpha hartmann6dDefault.maxFidelity 0 = hartALPHA 0 ∧
      (Hartmann6d.evaluate hartmann6dDefault [(0 : ℝ), 0, 0, 0, 0, 0]).getLast?
          = some (hartmann6dDefault.costFactor ^ (hartmann6dDefault.maxFidelity - 1) % 2 ^ 64,
              hartmann6dStandard [(0 : ℝ), 0, 0, 0, 0, 0])) :=
  ⟨⟨by decide, by decide⟩,
   hartmann_alpha_top_tier hartmann3dDefault hartmann6dDefault 3 4 0
     (by decide) (by decide) [(0 : ℝ), 0, 0] [(0 : ℝ), 0, 0, 0, 0, 0]⟩

end ArtificialLandscapes
